import Mathlib

/-!
Shallow embedding of the orchestration core of the rag-mcp repository:
the document processor (src/services/document_processor.py), the query
service (src/services/query_service.py), the RAG manager
(src/services/rag_manager.py) and the error wrapper of the tool registry
(src/tools/registry.py), together with theorems about their contracts.

Conventions used throughout:
- Python exceptions are modelled by the inductive type PyErr and fallible
  functions return Except PyErr.
- The filesystem visible to a call is an explicit List FileRec; a path is
  its list of components relative to the scanned directory.
- Awaited collaborator calls (the document-parsing backend, the instance's
  ingestion delegate) are passed in as explicit outcome parameters or
  functions, and each embedding returns alongside its result a count (or
  flag) of how many times the backend execution path was entered, so that
  claims of the form "the backend is not invoked" are stated directly.
- Wall-clock time is an explicit natural-number parameter threaded into
  operations that read datetime.utcnow().
-/

set_option maxRecDepth 8192

/-- Configuration fields of src/config/settings.py that the embedded core
reads, with the source defaults. -/
structure Settings where
  MAX_FILE_SIZE_MB : Nat := 100
  SUPPORTED_FILE_EXTENSIONS : List String := [".pdf", ".docx", ".pptx", ".txt", ".md"]
  RAG_MAX_WORKERS : Nat := 4
  ENABLE_CACHE : Bool := true
  deriving DecidableEq, Repr

/-- Python exceptions raised by the embedded core: ValueError,
FileNotFoundError, and any other exception class (carried with its class
name, so that the registry wrapper can report type(e).__name__). -/
inductive PyErr where
  | valueError (msg : String)
  | fileNotFoundError (msg : String)
  | otherError (className : String) (msg : String)
  deriving DecidableEq, Repr

/-- The message str(e) of an exception. -/
def PyErr.message : PyErr → String
  | .valueError m => m
  | .fileNotFoundError m => m
  | .otherError _ m => m

/-- A file on disk, seen by the embedding: its path (components relative
to the scanned directory) and its size in bytes as reported by stat(). -/
structure FileRec where
  path : List String
  sizeBytes : Nat
  deriving DecidableEq, Repr

/-- Path components rendered back into a display string. -/
def pathStr (p : List String) : String :=
  String.intercalate "/" p

/-- The size computation file.stat().st_size / (1024 * 1024) of
document_processor.process_single_document, in exact rational arithmetic
(written with mkRat, which equals the division — see fileSizeMB_eq_div). -/
def fileSizeMB (f : FileRec) : ℚ :=
  mkRat f.sizeBytes (1024 * 1024)

/-- The mkRat form of the size computation is exactly the source's
division st_size / (1024 * 1024). -/
theorem fileSizeMB_eq_div (f : FileRec) :
    fileSizeMB f = (f.sizeBytes : ℚ) / (1024 * 1024) := by
  unfold fileSizeMB
  rw [Rat.mkRat_eq_div]
  norm_num

/-- Per-file outcome record: the "status" / "file_path" / "error" fields of
the result dictionaries built by the document processor (the remaining
payload fields of the success dictionary are not inspected by any
aggregation and are not modelled). -/
structure FileResult where
  status : String
  filePath : List String
  error : Option String := none
  deriving DecidableEq, Repr

/-- The statistics dictionary returned by
DocumentProcessor.process_directory. -/
structure BatchStats where
  status : String
  totalFiles : Nat
  processedFiles : Nat
  failedFiles : Nat
  skippedFiles : Nat
  errors : List FileResult
  deriving DecidableEq, Repr

/-- The suffix test str.endswith used by the glob model, computed on the
character lists of the strings. -/
def strEndsWith (s post : String) : Bool :=
  List.isSuffixOf post.data s.data

/-- Whether directory.glob(pattern ++ ext) matches a file at relative path
p, modelling pathlib glob for the two patterns the source uses: pattern is
"**/*" when recursive (any depth at least one) and "*" otherwise (direct
children only), and the trailing ext requires the file name to end with
ext. -/
def globMatch (recursive : Bool) (ext : String) (p : List String) : Bool :=
  (recursive || p.length == 1) &&
    (match p.getLast? with
     | some name => strEndsWith name ext
     | none => false)

/-- The accumulation loop of DocumentProcessor._find_files: for each
extension in turn, extend the collection with every file matching the glob
for that extension (a file matching several extensions is appended once
per match). -/
def DocumentProcessor.collectMatches (fs : List FileRec) (recursive : Bool) :
    List String → List FileRec
  | [] => []
  | ext :: rest =>
      fs.filter (fun f => globMatch recursive ext f.path)
        ++ DocumentProcessor.collectMatches fs recursive rest

/-- The comparison key of a path: Python compares Path objects as tuples
of component strings and strings lexicographically by character code
point, so a path is keyed by its components' code-point lists. -/
def pathKey (p : List String) : List (List Nat) :=
  p.map (fun s => s.data.map Char.toNat)

/-- Ordering on files used by sorted(files): componentwise lexicographic
comparison of the path, each component by code point. -/
def FileRec.le (a b : FileRec) : Prop :=
  pathKey a.path ≤ pathKey b.path

instance : DecidableRel FileRec.le :=
  fun a b => inferInstanceAs (Decidable (pathKey a.path ≤ pathKey b.path))

instance : IsTotal FileRec FileRec.le :=
  ⟨fun a b => le_total (pathKey a.path) (pathKey b.path)⟩

instance : IsTrans FileRec FileRec.le :=
  ⟨fun _ _ _ h1 h2 => le_trans h1 h2⟩

/-- DocumentProcessor._find_files: collect the glob matches of every
extension, then sorted(files). -/
def DocumentProcessor.find_files (fs : List FileRec) (extensions : List String)
    (recursive : Bool) : List FileRec :=
  List.insertionSort FileRec.le (DocumentProcessor.collectMatches fs recursive extensions)

/-- The ValueError message of the size check (the source renders the sizes
in MB with two decimals; that numeric formatting is abstracted here, the
message is examined by no caller). -/
def fileTooLargeMsg (f : FileRec) (s : Settings) : String :=
  "File too large: " ++ toString f.sizeBytes ++ "B (max: " ++
    toString s.MAX_FILE_SIZE_MB ++ "MB)"

/-- DocumentProcessor.process_single_document. The backend parameter
stands for the parsing/indexing capability invoked inside the try block
(inline placeholder in the source); its outcome determines the
success/error result dictionary built there, and the second component of
the return value counts how many times it was entered (0 or 1). The
file-existence and size checks run before the try block and raise. -/
def DocumentProcessor.process_single_document (s : Settings)
    (backend : FileRec → Except String Unit) (fs : List FileRec)
    (filePath : List String) : Except PyErr FileResult × Nat :=
  match fs.find? (fun f => f.path == filePath) with
  | none => (.error (.fileNotFoundError ("File not found: " ++ pathStr filePath)), 0)
  | some f =>
      if fileSizeMB f > (s.MAX_FILE_SIZE_MB : ℚ) then
        (.error (.valueError (fileTooLargeMsg f s)), 0)
      else
        match backend f with
        | .ok _ => (.ok { status := "success", filePath := filePath }, 1)
        | .error e => (.ok { status := "error", filePath := filePath, error := some e }, 1)

/-- One unit of work of DocumentProcessor._process_files_batch: run
process_single_document on the file and convert a raised exception into an
error record for that file (the return_exceptions handling of the gather
call). -/
def DocumentProcessor.fileOutcome (s : Settings)
    (backend : FileRec → Except String Unit) (fs : List FileRec)
    (f : FileRec) : FileResult × Nat :=
  match DocumentProcessor.process_single_document s backend fs f.path with
  | (.ok r, n) => (r, n)
  | (.error e, n) => ({ status := "error", filePath := f.path, error := some e.message }, n)

/-- DocumentProcessor._process_files_batch: every file is dispatched and
the aggregation waits for all of them, the result list keeping the input
order (asyncio.gather preserves positional order). The semaphore bounds
how many units are simultaneously suspended; it does not affect the
outcomes or their order, so it has no residue in the embedding. The
second component is the total number of backend invocations. -/
def DocumentProcessor.process_files_batch (s : Settings)
    (backend : FileRec → Except String Unit) (fs : List FileRec)
    (files : List FileRec) : List FileResult × Nat :=
  let outs := files.map (DocumentProcessor.fileOutcome s backend fs)
  (outs.map Prod.fst, (outs.map Prod.snd).sum)

/-- DocumentProcessor.process_directory: scan, early return on an empty
scan, otherwise batch-process and compile the statistics dictionary. -/
def DocumentProcessor.process_directory (s : Settings)
    (backend : FileRec → Except String Unit) (fs : List FileRec)
    (file_extensions : Option (List String)) (recursive : Bool) :
    BatchStats × Nat :=
  let extensions := file_extensions.getD s.SUPPORTED_FILE_EXTENSIONS
  let files := DocumentProcessor.find_files fs extensions recursive
  if files.isEmpty then
    ({ status := "completed", totalFiles := 0, processedFiles := 0,
       failedFiles := 0, skippedFiles := 0, errors := [] }, 0)
  else
    let pr := DocumentProcessor.process_files_batch s backend fs files
    let results := pr.1
    ({ status := "completed",
       totalFiles := files.length,
       processedFiles := results.countP (fun r => r.status == "success"),
       failedFiles := results.countP (fun r => r.status == "error"),
       skippedFiles := results.countP (fun r => r.status == "skipped"),
       errors := results.filter (fun r => r.status == "error") }, pr.2)

/-- The fixed set of valid query modes of QueryService. -/
def VALID_MODES : List String :=
  ["hybrid", "local", "global", "naive", "mix", "bypass"]

/-- The query response dictionary built by QueryService.query: its "query",
"mode" and "response" fields plus the working-directory entry of its
metadata (the remaining metadata fields are constants not examined by any
claim about payload identity, they ride along with these). -/
structure QueryPayload where
  query : String
  mode : String
  response : String
  workingDir : String
  deriving DecidableEq, Repr

/-- The placeholder answer computed inside QueryService.query when the
cache misses (the capability-backend execution path). -/
def placeholderQueryResult (workingDir query mode : String) : QueryPayload :=
  { query := query, mode := mode,
    response := "Placeholder response for query: " ++ query,
    workingDir := workingDir }

/-- Per-instance query service state: the working directory it was built
with and its response cache, which is a dictionary when ENABLE_CACHE was
set at construction and None otherwise. The dictionary is an association
list looked up by its first matching key, matching dict semantics because
a key is inserted only when absent. -/
structure QueryService where
  workingDir : String
  cache : Option (List (String × QueryPayload))
  deriving DecidableEq, Repr

/-- QueryService.__init__: the cache is an empty dict if
settings.ENABLE_CACHE else None. -/
def QueryService.init (s : Settings) (workingDir : String) : QueryService :=
  { workingDir := workingDir,
    cache := if s.ENABLE_CACHE then some [] else none }

/-- QueryService.query: validate the mode, look up the cache under the key
mode ++ ":" ++ query, return the stored payload on a hit, otherwise
execute the backend path, store the result when a cache exists, and return
it. The Bool in the result records whether the backend execution path was
entered. -/
def QueryService.query (qs : QueryService) (query mode : String) :
    Except PyErr (QueryPayload × QueryService × Bool) :=
  if VALID_MODES.contains mode then
    let cache_key := mode ++ ":" ++ query
    let cached : Option QueryPayload :=
      match qs.cache with
      | some c => c.lookup cache_key
      | none => none
    match cached with
    | some payload => .ok (payload, qs, false)
    | none =>
        let result := placeholderQueryResult qs.workingDir query mode
        let qs' : QueryService :=
          match qs.cache with
          | some c => { qs with cache := some ((cache_key, result) :: c) }
          | none => qs
        .ok (result, qs', true)
  else
    .error (.valueError ("Invalid query mode: " ++ mode ++ ". Valid modes: " ++
      String.intercalate ", " VALID_MODES))

/-- A RAG instance of rag_manager.py. Python object identity is modelled
by the numeric id assigned at creation; the directory path stored is the
canonical one (the registry key). Timestamps are the explicit clock value
at the corresponding event. -/
structure RAGInstance where
  id : Nat
  directoryPath : String
  apiKey : String
  workingDir : Option String
  createdAt : Nat
  lastAccessed : Nat
  isProcessing : Bool
  isInitialized : Bool
  deriving DecidableEq, Repr

/-- RAGInstance.touch: update the last-accessed time. -/
def RAGInstance.touch (now : Nat) (inst : RAGInstance) : RAGInstance :=
  { inst with lastAccessed := now }

/-- The mutable state of RAGManager: the path-to-instance dictionary
(an association list looked up by its first matching key) plus the counter
supplying fresh instance identities. -/
structure ManagerState where
  instances : List (String × RAGInstance)
  nextId : Nat
  deriving DecidableEq, Repr

/-- The set of registry keys, in insertion order. -/
def ManagerState.keys (st : ManagerState) : List String :=
  st.instances.map Prod.fst

/-- Entrywise write-back over the dictionary entries: apply g to every
value stored under the given key, leave other entries unchanged. -/
def updateEntries (k : String) (g : RAGInstance → RAGInstance) :
    List (String × RAGInstance) → List (String × RAGInstance)
  | [] => []
  | (k0, v) :: tl => (if k0 = k then (k0, g v) else (k0, v)) :: updateEntries k g tl

/-- Write-back of a mutation of the shared instance object stored under a
key (Python mutates the object in place; the embedding rewrites the
entry holding that key). -/
def ManagerState.updateInstance (st : ManagerState) (key : String)
    (g : RAGInstance → RAGInstance) : ManagerState :=
  { st with instances := updateEntries key g st.instances }

/-- RAGManager.get_or_create_instance: canonicalize the path (the
Path.resolve call is the abstract canon parameter — an OS operation),
return the existing instance touched if the key is present, otherwise
construct and insert a fresh instance (is_processing and is_initialized
start False). -/
def RAGManager.get_or_create_instance (canon : String → String) (now : Nat)
    (st : ManagerState) (directory_path : String) (api_key : String)
    (working_dir : Option String) : RAGInstance × ManagerState :=
  let cache_key := canon directory_path
  match st.instances.lookup cache_key with
  | some inst =>
      let inst' := inst.touch now
      (inst', st.updateInstance cache_key (fun _ => inst'))
  | none =>
      let inst : RAGInstance :=
        { id := st.nextId, directoryPath := cache_key, apiKey := api_key,
          workingDir := working_dir, createdAt := now, lastAccessed := now,
          isProcessing := false, isInitialized := false }
      (inst, { instances := st.instances ++ [(cache_key, inst)],
               nextId := st.nextId + 1 })

/-- RAGManager.process_directory: resolve or create the instance, raise
ValueError if it is already processing, otherwise set is_processing, await
the document-processor delegate (its outcome is the explicit ing
parameter, success or exception), set is_initialized on success, re-raise
on failure, and in both cases clear is_processing in the finally block.
The Bool in the result records whether the delegate was invoked. -/
def RAGManager.process_directory (canon : String → String) (now : Nat)
    (st : ManagerState) (directory_path : String) (api_key : String)
    (working_dir : Option String) (ing : Except PyErr BatchStats) :
    Except PyErr BatchStats × ManagerState × Bool :=
  let r := RAGManager.get_or_create_instance canon now st directory_path api_key working_dir
  let inst := r.1
  let st1 := r.2
  if inst.isProcessing then
    (.error (.valueError ("Directory is already being processed: " ++ directory_path)),
     st1, false)
  else
    let cache_key := canon directory_path
    match ing with
    | .ok stats =>
        (.ok stats,
         st1.updateInstance cache_key
           (fun i => { i with isInitialized := true, isProcessing := false }),
         true)
    | .error e =>
        (.error e,
         st1.updateInstance cache_key (fun i => { i with isProcessing := false }),
         true)

/-- RAGManager.query_directory: raise ValueError if no instance exists for
the canonical path, touch it, raise ValueError if it was never
initialized, otherwise delegate to the instance's query service (the
delegate outcome is the explicit res parameter; errors from it are
re-raised unchanged). The Bool records whether the delegate was invoked. -/
def RAGManager.query_directory (canon : String → String) (now : Nat)
    (st : ManagerState) (directory_path : String)
    (res : Except PyErr QueryPayload) :
    Except PyErr QueryPayload × ManagerState × Bool :=
  let cache_key := canon directory_path
  match st.instances.lookup cache_key with
  | none =>
      (.error (.valueError ("Directory not processed: " ++ directory_path)), st, false)
  | some inst =>
      let st1 := st.updateInstance cache_key (fun i => i.touch now)
      if inst.isInitialized then (res, st1, true)
      else
        (.error (.valueError ("Directory not fully initialized: " ++ directory_path)),
         st1, false)

/-- RAGManager.query_with_multimodal: raise ValueError if no instance
exists for the canonical path, touch it, and delegate to the instance's
query service — the source performs no is_initialized check on this path.
The Bool records whether the delegate was invoked. -/
def RAGManager.query_with_multimodal (canon : String → String) (now : Nat)
    (st : ManagerState) (directory_path : String)
    (res : Except PyErr QueryPayload) :
    Except PyErr QueryPayload × ManagerState × Bool :=
  let cache_key := canon directory_path
  match st.instances.lookup cache_key with
  | none =>
      (.error (.valueError ("Directory not processed: " ++ directory_path)), st, false)
  | some _ =>
      let st1 := st.updateInstance cache_key (fun i => i.touch now)
      (res, st1, true)

/-- The structured result a wrapped tool handler yields at the boundary:
either the handler's payload or a failure dictionary carrying "error" and
"error_type". -/
inductive ToolResult (A : Type) where
  | success (payload : A)
  | failure (error : String) (errorType : String)
  deriving DecidableEq, Repr

/-- The error_type string assigned by the handle_errors wrapper of
src/tools/registry.py: ValueError is reported as "ValidationError",
FileNotFoundError as "FileNotFoundError", and any other exception as its
class name type(e).__name__. -/
def errorTypeOf : PyErr → String
  | .valueError _ => "ValidationError"
  | .fileNotFoundError _ => "FileNotFoundError"
  | .otherError className _ => className

/-- The handle_errors decorator: a normal return passes through, every
raised exception is converted to the structured failure dictionary. -/
def handle_errors {A : Type} : Except PyErr A → ToolResult A
  | .ok a => .success a
  | .error e => .failure e.message (errorTypeOf e)

/-! Helper lemmas about the association-list operations of the registry. -/

theorem lookup_updateEntries_self (k : String) (g : RAGInstance → RAGInstance) :
    ∀ l : List (String × RAGInstance),
      (updateEntries k g l).lookup k = (l.lookup k).map g
  | [] => rfl
  | (k0, v) :: tl => by
      by_cases h : k0 = k
      · subst h
        rw [updateEntries, if_pos rfl]
        simp only [List.lookup, beq_self_eq_true]
        rfl
      · have hb : (k == k0) = false := beq_eq_false_iff_ne.mpr (Ne.symm h)
        rw [updateEntries, if_neg h]
        simp only [List.lookup, hb]
        exact lookup_updateEntries_self k g tl

theorem lookup_updateEntries_ne (k k' : String) (g : RAGInstance → RAGInstance)
    (hne : k' ≠ k) :
    ∀ l : List (String × RAGInstance),
      (updateEntries k g l).lookup k' = l.lookup k'
  | [] => rfl
  | (k0, v) :: tl => by
      by_cases h : k0 = k
      · have hb : (k' == k0) = false :=
          beq_eq_false_iff_ne.mpr (fun he => hne (he.trans h))
        rw [updateEntries, if_pos h]
        simp only [List.lookup, hb]
        exact lookup_updateEntries_ne k k' g hne tl
      · rw [updateEntries, if_neg h]
        cases hb : k' == k0 with
        | true => simp only [List.lookup, hb]
        | false =>
            simp only [List.lookup, hb]
            exact lookup_updateEntries_ne k k' g hne tl

theorem keys_updateEntries (k : String) (g : RAGInstance → RAGInstance) :
    ∀ l : List (String × RAGInstance),
      (updateEntries k g l).map Prod.fst = l.map Prod.fst
  | [] => rfl
  | (k0, v) :: tl => by
      by_cases h : k0 = k <;>
        simp only [updateEntries, if_pos, if_neg, h, List.map_cons] <;>
        exact congrArg _ (keys_updateEntries k g tl)

theorem ManagerState.lookup_update_self (st : ManagerState) (k : String)
    (g : RAGInstance → RAGInstance) :
    (st.updateInstance k g).instances.lookup k = (st.instances.lookup k).map g :=
  lookup_updateEntries_self k g st.instances

theorem ManagerState.keys_update (st : ManagerState) (k : String)
    (g : RAGInstance → RAGInstance) :
    (st.updateInstance k g).keys = st.keys :=
  keys_updateEntries k g st.instances

theorem lookup_append_of_eq_none {k : String} :
    ∀ {l₁ : List (String × RAGInstance)} (l₂ : List (String × RAGInstance)),
      l₁.lookup k = none → (l₁ ++ l₂).lookup k = l₂.lookup k
  | [], _, _ => rfl
  | (k0, v) :: tl, l₂, h => by
      cases hb : k == k0 with
      | true => simp [List.lookup, hb] at h
      | false =>
          simp only [List.lookup, hb] at h
          simp only [List.cons_append, List.lookup, hb]
          exact lookup_append_of_eq_none l₂ h

theorem lookup_eq_none_iff_keys (k : String) :
    ∀ l : List (String × RAGInstance),
      l.lookup k = none ↔ k ∉ l.map Prod.fst
  | [] => by simp
  | (k0, v) :: tl => by
      cases hb : k == k0 with
      | true =>
          have : k = k0 := eq_of_beq hb
          subst this
          simp [List.lookup, hb]
      | false =>
          have hne : k ≠ k0 := ne_of_beq_false hb
          simp only [List.lookup, hb, List.map_cons, List.mem_cons]
          rw [lookup_eq_none_iff_keys k tl]
          simp [hne]

theorem get_or_create_lookup_self (canon : String → String) (now : Nat)
    (st : ManagerState) (p a : String) (w : Option String) :
    ((RAGManager.get_or_create_instance canon now st p a w).2).instances.lookup (canon p)
      = some (RAGManager.get_or_create_instance canon now st p a w).1 := by
  unfold RAGManager.get_or_create_instance
  cases h : st.instances.lookup (canon p) with
  | some inst =>
      simp [h, ManagerState.lookup_update_self]
  | none =>
      simp only [h]
      rw [lookup_append_of_eq_none _ h]
      simp [List.lookup]

theorem get_or_create_keys_nodup (canon : String → String) (now : Nat)
    (st : ManagerState) (p a : String) (w : Option String)
    (h : st.keys.Nodup) :
    ((RAGManager.get_or_create_instance canon now st p a w).2).keys.Nodup := by
  unfold RAGManager.get_or_create_instance
  cases hl : st.instances.lookup (canon p) with
  | some inst =>
      simpa [hl, ManagerState.keys_update] using h
  | none =>
      have hout : canon p ∉ st.instances.map Prod.fst :=
        (lookup_eq_none_iff_keys (canon p) st.instances).mp hl
      simp only [hl]
      simp only [ManagerState.keys] at h ⊢
      rw [List.map_append, List.nodup_append]
      refine ⟨h, List.nodup_singleton _, ?_⟩
      simp only [List.map_cons, List.map_nil]
      intro x hx hc
      simp only [List.mem_singleton] at hc
      exact hout (hc ▸ hx)

/-- C1: a process_directory call issued while the instance's state is
already Processing fails with the AlreadyProcessing ValueError and
performs no ingestion (the delegate is never invoked; the registry entry
is only touched); and every call that does proceed (the delegate was
invoked) leaves the instance with is_processing cleared when it returns,
whether the delegate completed normally or raised (guaranteed release). -/
theorem C1_mutual_exclusion_and_guaranteed_release
    (canon : String → String) (now : Nat) (st : ManagerState)
    (directory_path api_key : String) (working_dir : Option String)
    (ing : Except PyErr BatchStats) :
    (∀ inst, st.instances.lookup (canon directory_path) = some inst →
        inst.isProcessing = true →
        RAGManager.process_directory canon now st directory_path api_key working_dir ing
          = (.error (.valueError
                ("Directory is already being processed: " ++ directory_path)),
             st.updateInstance (canon directory_path) (fun _ => inst.touch now),
             false)) ∧
    (∀ result st' ran,
        RAGManager.process_directory canon now st directory_path api_key working_dir ing
          = (result, st', ran) →
        ran = true →
        ∃ inst', st'.instances.lookup (canon directory_path) = some inst' ∧
          inst'.isProcessing = false) := by
  constructor
  · intro inst hl hp
    unfold RAGManager.process_directory RAGManager.get_or_create_instance
    simp only [hl]
    rw [if_pos (show (inst.touch now).isProcessing = true from hp)]
  · intro result st' ran heq hran
    have hG := get_or_create_lookup_self canon now st directory_path api_key working_dir
    rcases hGeq : RAGManager.get_or_create_instance canon now st directory_path
        api_key working_dir with ⟨i1, st1⟩
    rw [hGeq] at hG
    unfold RAGManager.process_directory at heq
    rw [hGeq] at heq
    simp only at heq
    by_cases hp : i1.isProcessing
    · rw [if_pos hp] at heq
      cases heq
      exact absurd hran (by simp)
    · rw [if_neg hp] at heq
      cases ing with
      | ok stats =>
          cases heq
          refine ⟨{ i1 with isInitialized := true, isProcessing := false }, ?_, rfl⟩
          rw [ManagerState.lookup_update_self, hG]
          rfl
      | error e =>
          cases heq
          refine ⟨{ i1 with isProcessing := false }, ?_, rfl⟩
          rw [ManagerState.lookup_update_self, hG]
          rfl

/-- A registry entry that is idle and has never completed an ingestion. -/
def demoIdleInst : RAGInstance :=
  { id := 0, directoryPath := "/d", apiKey := "k", workingDir := none,
    createdAt := 0, lastAccessed := 0, isProcessing := false, isInitialized := false }

/-- A registry holding the idle instance under its canonical path. -/
def demoIdleState : ManagerState :=
  { instances := [("/d", demoIdleInst)], nextId := 1 }

/-- A registry entry whose state is currently Processing. -/
def demoBusyInst : RAGInstance :=
  { demoIdleInst with isProcessing := true }

/-- A registry holding the busy instance under its canonical path. -/
def demoBusyState : ManagerState :=
  { instances := [("/d", demoBusyInst)], nextId := 1 }

/-- An empty statistics report used as a concrete delegate outcome. -/
def demoStats : BatchStats :=
  { status := "completed", totalFiles := 0, processedFiles := 0,
    failedFiles := 0, skippedFiles := 0, errors := [] }

/-- A concrete query payload used as a concrete delegate outcome. -/
def demoPayload : QueryPayload := placeholderQueryResult "w" "q" "hybrid"

/-- Witness for C1 at concrete inputs: a registry whose instance is
Processing rejects a second call without ingesting, and an admitted call
on an idle registry ends with is_processing cleared. -/
theorem C1_witness :
    (RAGManager.process_directory (fun s => s) 9 demoBusyState "/d" "k" none
        (.ok demoStats)
      = (.error (.valueError ("Directory is already being processed: " ++ "/d")),
         demoBusyState.updateInstance "/d" (fun _ => demoBusyInst.touch 9), false)) ∧
    (∃ inst',
        ((RAGManager.process_directory (fun s => s) 9 demoIdleState "/d" "k" none
            (.ok demoStats)).2.1).instances.lookup "/d" = some inst' ∧
        inst'.isProcessing = false) := by
  constructor
  · exact (C1_mutual_exclusion_and_guaranteed_release (fun s => s) 9 demoBusyState
      "/d" "k" none (.ok demoStats)).1 demoBusyInst (by decide) (by decide)
  · exact (C1_mutual_exclusion_and_guaranteed_release (fun s => s) 9 demoIdleState
      "/d" "k" none (.ok demoStats)).2 _ _ _ rfl rfl

/-- C4: two get_or_create_instance calls whose path spellings canonicalize
identically return the same instance object (the second call returns the
instance created or found by the first, merely touched), insert no second
entry, and the registry keys stay free of duplicates, so at most one
instance exists per canonical path. -/
theorem C4_get_or_create_idempotent
    (canon : String → String) (now1 now2 : Nat) (st : ManagerState)
    (p1 p2 api1 api2 : String) (w1 w2 : Option String)
    (hnd : st.keys.Nodup) (hc : canon p1 = canon p2) :
    (RAGManager.get_or_create_instance canon now2
        (RAGManager.get_or_create_instance canon now1 st p1 api1 w1).2 p2 api2 w2).1
      = ((RAGManager.get_or_create_instance canon now1 st p1 api1 w1).1).touch now2 ∧
    (RAGManager.get_or_create_instance canon now2
        (RAGManager.get_or_create_instance canon now1 st p1 api1 w1).2 p2 api2 w2).2.keys
      = (RAGManager.get_or_create_instance canon now1 st p1 api1 w1).2.keys ∧
    (RAGManager.get_or_create_instance canon now1 st p1 api1 w1).2.keys.Nodup ∧
    (RAGManager.get_or_create_instance canon now2
        (RAGManager.get_or_create_instance canon now1 st p1 api1 w1).2
        p2 api2 w2).2.keys.Nodup := by
  have h1 := get_or_create_lookup_self canon now1 st p1 api1 w1
  have hl2 : ((RAGManager.get_or_create_instance canon now1 st p1 api1 w1).2).instances.lookup
      (canon p2) = some (RAGManager.get_or_create_instance canon now1 st p1 api1 w1).1 := by
    rw [← hc]
    exact h1
  have hnd1 := get_or_create_keys_nodup canon now1 st p1 api1 w1 hnd
  refine ⟨?_, ?_, hnd1, ?_⟩
  · conv_lhs => rw [RAGManager.get_or_create_instance]
    rw [hl2]
  · conv_lhs => rw [RAGManager.get_or_create_instance]
    rw [hl2]
    exact ManagerState.keys_update _ _ _
  · exact get_or_create_keys_nodup canon now2 _ p2 api2 w2 hnd1

/-- The canonicalization used by the C4 witness: the spelling "/a/./b"
resolves to "/a/b", every other string is its own canonical form. -/
def c4canon : String → String :=
  fun s => if s = "/a/./b" then "/a/b" else s

/-- Witness for C4 at concrete inputs: creating via "/a/b" and then
resolving "/a/./b" on an initially empty registry yields the same
instance and no duplicate entry. -/
theorem C4_witness :
    (RAGManager.get_or_create_instance c4canon 8
        (RAGManager.get_or_create_instance c4canon 7 ⟨[], 0⟩ "/a/b" "k" none).2
        "/a/./b" "k" none).1
      = ((RAGManager.get_or_create_instance c4canon 7 ⟨[], 0⟩ "/a/b" "k" none).1).touch 8 ∧
    (RAGManager.get_or_create_instance c4canon 8
        (RAGManager.get_or_create_instance c4canon 7 ⟨[], 0⟩ "/a/b" "k" none).2
        "/a/./b" "k" none).2.keys
      = (RAGManager.get_or_create_instance c4canon 7 ⟨[], 0⟩ "/a/b" "k" none).2.keys ∧
    (RAGManager.get_or_create_instance c4canon 7 ⟨[], 0⟩ "/a/b" "k" none).2.keys.Nodup ∧
    (RAGManager.get_or_create_instance c4canon 8
        (RAGManager.get_or_create_instance c4canon 7 ⟨[], 0⟩ "/a/b" "k" none).2
        "/a/./b" "k" none).2.keys.Nodup :=
  C4_get_or_create_idempotent c4canon 7 8 ⟨[], 0⟩ "/a/b" "/a/./b" "k" "k" none none
    (by decide) (by decide)

/-- The instance returned by get_or_create_instance carries the
is_initialized value already stored for the canonical path, or False when
the instance is freshly created. -/
theorem get_or_create_isInitialized (canon : String → String) (now : Nat)
    (st : ManagerState) (p a : String) (w : Option String) :
    ((RAGManager.get_or_create_instance canon now st p a w).1).isInitialized
      = ((st.instances.lookup (canon p)).map RAGInstance.isInitialized).getD false := by
  unfold RAGManager.get_or_create_instance
  cases h : st.instances.lookup (canon p) <;> simp [h, RAGInstance.touch]

/-- C6 counterexample: an admitted process_directory call whose ingestion
delegate raises completes (the delegate ran) yet leaves is_initialized
False — refuting the claim that initialized is set to true on completion
whether the delegate succeeds or fails. -/
theorem C6_counterexample :
    (RAGManager.process_directory (fun s => s) 3 demoIdleState "/d" "k" none
        (.error (.otherError "RuntimeError" "boom"))).2.2 = true ∧
    (((RAGManager.process_directory (fun s => s) 3 demoIdleState "/d" "k" none
        (.error (.otherError "RuntimeError" "boom"))).2.1).instances.lookup "/d").map
        RAGInstance.isInitialized = some false := by
  decide

/-- C6 as amended: an admitted process_directory call sets is_initialized
to true when the ingestion delegate returns normally; when the delegate
raises, is_initialized keeps the value it had (False for a fresh
instance); and under any outcome an instance whose is_initialized is
already true keeps it true — the flag only ever transitions false to
true. -/
theorem C6_initialized_on_success_only
    (canon : String → String) (now : Nat) (st : ManagerState)
    (directory_path api_key : String) (working_dir : Option String) :
    (∀ stats result st' ran,
        RAGManager.process_directory canon now st directory_path api_key working_dir
            (.ok stats) = (result, st', ran) → ran = true →
        ∃ inst', st'.instances.lookup (canon directory_path) = some inst' ∧
          inst'.isInitialized = true) ∧
    (∀ e result st' ran,
        RAGManager.process_directory canon now st directory_path api_key working_dir
            (.error e) = (result, st', ran) → ran = true →
        ∃ inst', st'.instances.lookup (canon directory_path) = some inst' ∧
          inst'.isInitialized
            = ((st.instances.lookup (canon directory_path)).map
                RAGInstance.isInitialized).getD false) ∧
    (∀ ing result st' ran,
        RAGManager.process_directory canon now st directory_path api_key working_dir
            ing = (result, st', ran) →
        (st.instances.lookup (canon directory_path)).map RAGInstance.isInitialized
          = some true →
        ∃ inst', st'.instances.lookup (canon directory_path) = some inst' ∧
          inst'.isInitialized = true) := by
  have hG := get_or_create_lookup_self canon now st directory_path api_key working_dir
  have hI := get_or_create_isInitialized canon now st directory_path api_key working_dir
  rcases hGeq : RAGManager.get_or_create_instance canon now st directory_path
      api_key working_dir with ⟨i1, st1⟩
  rw [hGeq] at hG hI
  refine ⟨?_, ?_, ?_⟩
  · intro stats result st' ran heq hran
    unfold RAGManager.process_directory at heq
    rw [hGeq] at heq
    simp only at heq
    by_cases hp : i1.isProcessing
    · rw [if_pos hp] at heq
      cases heq
      exact absurd hran (by simp)
    · rw [if_neg hp] at heq
      cases heq
      refine ⟨{ i1 with isInitialized := true, isProcessing := false }, ?_, rfl⟩
      rw [ManagerState.lookup_update_self, hG]
      rfl
  · intro e result st' ran heq hran
    unfold RAGManager.process_directory at heq
    rw [hGeq] at heq
    simp only at heq
    by_cases hp : i1.isProcessing
    · rw [if_pos hp] at heq
      cases heq
      exact absurd hran (by simp)
    · rw [if_neg hp] at heq
      cases heq
      refine ⟨{ i1 with isProcessing := false }, ?_, hI⟩
      rw [ManagerState.lookup_update_self, hG]
      rfl
  · intro ing result st' ran heq htrue
    have hIt : i1.isInitialized = true := by
      rw [hI, htrue]
      rfl
    unfold RAGManager.process_directory at heq
    rw [hGeq] at heq
    simp only at heq
    by_cases hp : i1.isProcessing
    · rw [if_pos hp] at heq
      cases heq
      exact ⟨i1, hG, hIt⟩
    · rw [if_neg hp] at heq
      cases ing with
      | ok stats =>
          cases heq
          refine ⟨{ i1 with isInitialized := true, isProcessing := false }, ?_, rfl⟩
          rw [ManagerState.lookup_update_self, hG]
          rfl
      | error e =>
          cases heq
          refine ⟨{ i1 with isProcessing := false }, ?_, hIt⟩
          rw [ManagerState.lookup_update_self, hG]
          rfl

/-- Witness for C6 (amended) at concrete inputs: on the idle registry a
successful delegate leaves is_initialized true, a raising delegate leaves
it equal to its previous value (false here). -/
theorem C6_witness :
    (∃ inst',
        ((RAGManager.process_directory (fun s => s) 3 demoIdleState "/d" "k" none
            (.ok demoStats)).2.1).instances.lookup "/d" = some inst' ∧
        inst'.isInitialized = true) ∧
    (∃ inst',
        ((RAGManager.process_directory (fun s => s) 3 demoIdleState "/d" "k" none
            (.error (.otherError "RuntimeError" "boom"))).2.1).instances.lookup "/d"
          = some inst' ∧
        inst'.isInitialized
          = ((demoIdleState.instances.lookup "/d").map RAGInstance.isInitialized).getD
              false) := by
  constructor
  · exact (C6_initialized_on_success_only (fun s => s) 3 demoIdleState "/d" "k"
      none).1 demoStats _ _ _ rfl rfl
  · exact (C6_initialized_on_success_only (fun s => s) 3 demoIdleState "/d" "k"
      none).2.1 (.otherError "RuntimeError" "boom") _ _ _ rfl rfl

/-- C7 counterexample: a registry whose instance exists but has never
completed an ingestion — query_directory fails with the NotInitialized
ValueError, yet query_with_multimodal on the same registry delegates to
the query executor and succeeds, refuting the claim that it applies the
same resolution rules. -/
theorem C7_counterexample :
    demoIdleInst.isInitialized = false ∧
    demoIdleState.instances.lookup "/d" = some demoIdleInst ∧
    RAGManager.query_with_multimodal (fun s => s) 4 demoIdleState "/d" (.ok demoPayload)
      = (.ok demoPayload,
         demoIdleState.updateInstance "/d" (fun i => i.touch 4), true) ∧
    RAGManager.query_directory (fun s => s) 4 demoIdleState "/d" (.ok demoPayload)
      = (.error (.valueError ("Directory not fully initialized: " ++ "/d")),
         demoIdleState.updateInstance "/d" (fun i => i.touch 4), false) :=
  ⟨rfl, rfl, rfl, rfl⟩

/-- C7 as amended: query_with_multimodal shares only the NotFound rule
with query_directory — it fails with the NotFound ValueError when no
instance exists for the canonical path, but performs no initialization
check: whenever an instance exists it touches it and delegates to the
query executor, initialized or not. -/
theorem C7_multimodal_resolution (canon : String → String) (now : Nat)
    (st : ManagerState) (directory_path : String)
    (res : Except PyErr QueryPayload) :
    (st.instances.lookup (canon directory_path) = none →
        RAGManager.query_with_multimodal canon now st directory_path res
          = (.error (.valueError ("Directory not processed: " ++ directory_path)),
             st, false)) ∧
    (∀ inst, st.instances.lookup (canon directory_path) = some inst →
        RAGManager.query_with_multimodal canon now st directory_path res
          = (res, st.updateInstance (canon directory_path) (fun i => i.touch now),
             true)) := by
  constructor
  · intro h
    unfold RAGManager.query_with_multimodal
    simp only [h]
  · intro inst h
    unfold RAGManager.query_with_multimodal
    simp only [h]

/-- Witness for C7 (amended) at concrete inputs: an empty registry yields
the NotFound failure, and the uninitialized idle registry delegates. -/
theorem C7_witness :
    RAGManager.query_with_multimodal (fun s => s) 4 ⟨[], 0⟩ "/d" (.ok demoPayload)
      = (.error (.valueError ("Directory not processed: " ++ "/d")), ⟨[], 0⟩, false) ∧
    RAGManager.query_with_multimodal (fun s => s) 4 demoIdleState "/d" (.ok demoPayload)
      = (.ok demoPayload,
         demoIdleState.updateInstance "/d" (fun i => i.touch 4), true) := by
  constructor
  · exact (C7_multimodal_resolution (fun s => s) 4 ⟨[], 0⟩ "/d" (.ok demoPayload)).1 rfl
  · exact (C7_multimodal_resolution (fun s => s) 4 demoIdleState "/d"
      (.ok demoPayload)).2 demoIdleInst (by decide)

/-- C8 counterexample: querying an unknown directory through the
handle_errors boundary yields error_type "ValidationError" (the
ValueError mapping of the wrapper), not the "NotFoundError" the claim
requires for an unknown directory. -/
theorem C8_counterexample :
    handle_errors ((RAGManager.query_directory (fun s => s) 0 ⟨[], 0⟩ "/d"
        (.ok demoPayload)).1)
      = .failure ("Directory not processed: /d") "ValidationError" ∧
    "ValidationError" ≠ "NotFoundError" := by
  constructor
  · rfl
  · decide

/-- C8 as amended: every failing boundary operation yields the structured
failure result with an error and an error_type (never an unhandled
fault), and the error_type is derived from the Python exception class —
ValueError maps to "ValidationError", FileNotFoundError to
"FileNotFoundError", anything else to its class name. Because the
registry raises ValueError for an unknown directory, for an ingestion
requested while one is in flight, and for a query before any successful
ingestion, all three surface as "ValidationError" (stable and
machine-matchable, but not the NotFoundError / AlreadyProcessingError /
NotInitializedError names of the claim's taxonomy). -/
theorem C8_error_wrapper_taxonomy :
    (∀ (A : Type) (a : A), handle_errors (.ok a) = .success a) ∧
    (∀ (A : Type) (e : PyErr),
        handle_errors (Except.error e : Except PyErr A)
          = .failure e.message (errorTypeOf e)) ∧
    (∀ (canon : String → String) (now : Nat) (st : ManagerState)
        (directory_path : String) (res : Except PyErr QueryPayload),
        st.instances.lookup (canon directory_path) = none →
        handle_errors ((RAGManager.query_directory canon now st directory_path res).1)
          = .failure ("Directory not processed: " ++ directory_path)
              "ValidationError") ∧
    (∀ (canon : String → String) (now : Nat) (st : ManagerState)
        (directory_path api_key : String) (working_dir : Option String)
        (ing : Except PyErr BatchStats) (inst : RAGInstance),
        st.instances.lookup (canon directory_path) = some inst →
        inst.isProcessing = true →
        handle_errors ((RAGManager.process_directory canon now st directory_path
            api_key working_dir ing).1)
          = .failure ("Directory is already being processed: " ++ directory_path)
              "ValidationError") ∧
    (∀ (canon : String → String) (now : Nat) (st : ManagerState)
        (directory_path : String) (res : Except PyErr QueryPayload)
        (inst : RAGInstance),
        st.instances.lookup (canon directory_path) = some inst →
        inst.isInitialized = false →
        handle_errors ((RAGManager.query_directory canon now st directory_path res).1)
          = .failure ("Directory not fully initialized: " ++ directory_path)
              "ValidationError") := by
  refine ⟨fun A a => rfl, fun A e => rfl, ?_, ?_, ?_⟩
  · intro canon now st directory_path res h
    unfold RAGManager.query_directory
    simp only [h]
    rfl
  · intro canon now st directory_path api_key working_dir ing inst h hp
    unfold RAGManager.process_directory RAGManager.get_or_create_instance
    simp only [h]
    rw [if_pos (show (inst.touch now).isProcessing = true from hp)]
    rfl
  · intro canon now st directory_path res inst h hi
    unfold RAGManager.query_directory
    simp only [h]
    rw [if_neg (show ¬ inst.isInitialized = true by simp [hi])]
    rfl

/-- Witness for C8 (amended) at concrete inputs: the three registry
failures all surface as "ValidationError" through the wrapper, and a
normal return passes through as a success payload. -/
theorem C8_witness :
    handle_errors (Except.ok demoPayload : Except PyErr QueryPayload)
      = .success demoPayload ∧
    handle_errors ((RAGManager.query_directory (fun s => s) 0 ⟨[], 0⟩ "/q"
        (.ok demoPayload)).1)
      = .failure ("Directory not processed: " ++ "/q") "ValidationError" ∧
    handle_errors ((RAGManager.process_directory (fun s => s) 1 demoBusyState "/d"
        "k" none (.ok demoStats)).1)
      = .failure ("Directory is already being processed: " ++ "/d")
          "ValidationError" ∧
    handle_errors ((RAGManager.query_directory (fun s => s) 2 demoIdleState "/d"
        (.ok demoPayload)).1)
      = .failure ("Directory not fully initialized: " ++ "/d") "ValidationError" := by
  refine ⟨C8_error_wrapper_taxonomy.1 QueryPayload demoPayload, ?_, ?_, ?_⟩
  · exact C8_error_wrapper_taxonomy.2.2.1 (fun s => s) 0 ⟨[], 0⟩ "/q"
      (.ok demoPayload) rfl
  · exact C8_error_wrapper_taxonomy.2.2.2.1 (fun s => s) 1 demoBusyState "/d" "k"
      none (.ok demoStats) demoBusyInst (by decide) (by decide)
  · exact C8_error_wrapper_taxonomy.2.2.2.2 (fun s => s) 2 demoIdleState "/d"
      (.ok demoPayload) demoIdleInst (by decide) (by decide)

/-- C5: with the cache enabled, a repeated query with the same (mode,
text) pair returns the payload the first call yielded, verbatim, without
entering the backend execution path and without changing the service
state; and when the first call was a cache miss, it entered the backend,
returned the computed placeholder payload, and stored it under the
mode-and-text cache key. -/
theorem C5_query_cache_hit
    (qs : QueryService) (c : List (String × QueryPayload))
    (query mode : String) (p : QueryPayload) (qs' : QueryService) (b : Bool)
    (hcache : qs.cache = some c)
    (hmode : VALID_MODES.contains mode = true)
    (h1 : qs.query query mode = .ok (p, qs', b)) :
    qs'.query query mode = .ok (p, qs', false) ∧
    (c.lookup (mode ++ ":" ++ query) = none →
        b = true ∧
        p = placeholderQueryResult qs.workingDir query mode ∧
        qs'.cache = some ((mode ++ ":" ++ query, p) :: c)) := by
  unfold QueryService.query at h1
  rw [if_pos hmode] at h1
  simp only [hcache] at h1
  cases hl : c.lookup (mode ++ ":" ++ query) with
  | some p0 =>
      rw [hl] at h1
      simp only at h1
      cases h1
      constructor
      · unfold QueryService.query
        rw [if_pos hmode]
        simp only [hcache, hl]
      · intro hnone
        exact Option.noConfusion hnone
  | none =>
      rw [hl] at h1
      simp only at h1
      cases h1
      constructor
      · unfold QueryService.query
        rw [if_pos hmode]
        simp only [List.lookup, beq_self_eq_true]
      · intro _
        exact ⟨rfl, rfl, rfl⟩

/-- The query service of the C5 witness, as constructed with the default
settings (cache enabled). -/
def c5service : QueryService := QueryService.init {} "w"

/-- The cache state after the first query of the C5 witness. -/
def c5service' : QueryService :=
  { workingDir := "w",
    cache := some [("hybrid:what is X",
      placeholderQueryResult "w" "what is X" "hybrid")] }

/-- Witness for C5 at concrete inputs: the second identical query returns
the stored payload with no backend invocation and no state change. -/
theorem C5_witness :
    c5service'.query "what is X" "hybrid"
      = .ok (placeholderQueryResult "w" "what is X" "hybrid", c5service', false) :=
  (C5_query_cache_hit c5service []
    "what is X" "hybrid" (placeholderQueryResult "w" "what is X" "hybrid")
    c5service' true rfl (by decide) rfl).1

/-- C10: when ENABLE_CACHE is false at construction the query cache is
absent (None) for that service, and every query on a cache-less service —
a repeat of an identical (mode, text) pair included — enters the backend
execution path, returns the freshly computed payload, and leaves the
service unchanged (nothing is ever read from or stored in a cache). -/
theorem C10_cache_disabled
    (s : Settings) (workingDir : String) (hs : s.ENABLE_CACHE = false) :
    (QueryService.init s workingDir).cache = none ∧
    (∀ (qs : QueryService) (query mode : String) (p : QueryPayload)
        (qs' : QueryService) (b : Bool),
        qs.cache = none →
        qs.query query mode = .ok (p, qs', b) →
        b = true ∧ qs' = qs ∧
        p = placeholderQueryResult qs.workingDir query mode) := by
  constructor
  · unfold QueryService.init
    rw [hs]
    simp
  · intro qs query mode p qs' b hcache h1
    unfold QueryService.query at h1
    by_cases hmode : VALID_MODES.contains mode = true
    · rw [if_pos hmode] at h1
      simp only [hcache] at h1
      cases h1
      exact ⟨rfl, rfl, rfl⟩
    · rw [if_neg hmode] at h1
      cases h1

/-- Witness for C10 at concrete inputs: a service built with
ENABLE_CACHE false has no cache, and a repeated identical query still
enters the backend both times and leaves the service unchanged. -/
theorem C10_witness :
    (QueryService.init { ENABLE_CACHE := false } "w").cache = none ∧
    ((QueryService.init { ENABLE_CACHE := false } "w").query "what is X" "hybrid"
      = .ok (placeholderQueryResult "w" "what is X" "hybrid",
             QueryService.init { ENABLE_CACHE := false } "w", true)) := by
  constructor
  · exact (C10_cache_disabled { ENABLE_CACHE := false } "w" rfl).1
  · have h := (C10_cache_disabled { ENABLE_CACHE := false } "w" rfl).2
      (QueryService.init { ENABLE_CACHE := false } "w") "what is X" "hybrid"
      (placeholderQueryResult "w" "what is X" "hybrid")
      (QueryService.init { ENABLE_CACHE := false } "w") true rfl rfl
    exact rfl

/-- C9 counterexample: a single file matching two overlapping extension
patterns appears twice in the scan result — find_files performs no
deduplication, refuting the at-most-once claim. -/
theorem C9_counterexample :
    ¬ (DocumentProcessor.find_files [⟨["a.tar.gz"], 1⟩] [".tar.gz", ".gz"] true).Nodup := by
  intro hnd
  have hperm : (DocumentProcessor.find_files [⟨["a.tar.gz"], 1⟩] [".tar.gz", ".gz"]
      true).Perm (DocumentProcessor.collectMatches [⟨["a.tar.gz"], 1⟩] true
        [".tar.gz", ".gz"]) :=
    List.perm_insertionSort FileRec.le _
  have h2 := hperm.nodup_iff.mp hnd
  rw [show DocumentProcessor.collectMatches [⟨["a.tar.gz"], 1⟩] true [".tar.gz", ".gz"]
      = [⟨["a.tar.gz"], 1⟩, ⟨["a.tar.gz"], 1⟩] by decide] at h2
  simp at h2

/-- C9 as amended: the scan result is deterministically sorted in
lexicographic path order, and its contents are exactly the per-extension
glob matches accumulated by the scan loop (as a permutation): a file
matching k extension patterns therefore appears k times — there is no
deduplication. -/
theorem C9_scan_sorted_no_dedup (fs : List FileRec) (extensions : List String)
    (recursive : Bool) :
    List.Sorted FileRec.le (DocumentProcessor.find_files fs extensions recursive) ∧
    (DocumentProcessor.find_files fs extensions recursive).Perm
      (DocumentProcessor.collectMatches fs recursive extensions) :=
  ⟨List.sorted_insertionSort FileRec.le _, List.perm_insertionSort FileRec.le _⟩

/-- Every per-file outcome of the batch path is classified "success" or
"error" — the batch never produces a "skipped" status. -/
theorem fileOutcome_status (s : Settings) (backend : FileRec → Except String Unit)
    (fs : List FileRec) (f : FileRec) :
    (DocumentProcessor.fileOutcome s backend fs f).1.status = "success" ∨
    (DocumentProcessor.fileOutcome s backend fs f).1.status = "error" := by
  unfold DocumentProcessor.fileOutcome DocumentProcessor.process_single_document
  cases h : fs.find? (fun g => g.path == f.path) with
  | none =>
      right
      simp only [h]
  | some g =>
      simp only [h]
      by_cases hs : fileSizeMB g > (s.MAX_FILE_SIZE_MB : ℚ)
      · rw [if_pos hs]
        right
        rfl
      · rw [if_neg hs]
        cases hb : backend g with
        | ok u => left; rfl
        | error e => right; rfl

/-- Counting helper: when every record's status is "success" or "error",
the three status counts of the report partition the list. -/
theorem tri_countP (l : List FileResult)
    (h : ∀ r ∈ l, r.status = "success" ∨ r.status = "error") :
    l.countP (fun r => r.status == "success")
      + l.countP (fun r => r.status == "error")
      + l.countP (fun r => r.status == "skipped") = l.length := by
  induction l with
  | nil => simp
  | cons hd tl ih =>
      have hh := h hd (List.mem_cons_self hd tl)
      have ht : ∀ r ∈ tl, r.status = "success" ∨ r.status = "error" :=
        fun r hr => h r (List.mem_cons_of_mem hd hr)
      have hrec := ih ht
      rcases hh with h1 | h1 <;>
        simp [List.countP_cons, h1] <;> omega

/-- The result list of the batch is the per-file outcome of each scanned
file, in scan order. -/
theorem process_files_batch_results (s : Settings)
    (backend : FileRec → Except String Unit) (fs : List FileRec)
    (files : List FileRec) :
    (DocumentProcessor.process_files_batch s backend fs files).1
      = files.map (fun f => (DocumentProcessor.fileOutcome s backend fs f).1) := by
  simp only [DocumentProcessor.process_files_batch]
  rw [List.map_map]
  rfl

/-- C3: batch conservation — the report of process_directory satisfies
processed + failed + skipped = total; its failed count equals the number
of scanned files whose per-file outcome is an error; and its error list
is exactly the outcome record of each failing scanned file, in scan
order — one record per failing file, no duplicates, no omissions. -/
theorem C3_batch_conservation (s : Settings)
    (backend : FileRec → Except String Unit) (fs : List FileRec)
    (file_extensions : Option (List String)) (recursive : Bool) :
    ((DocumentProcessor.process_directory s backend fs file_extensions
        recursive).1).processedFiles
      + ((DocumentProcessor.process_directory s backend fs file_extensions
          recursive).1).failedFiles
      + ((DocumentProcessor.process_directory s backend fs file_extensions
          recursive).1).skippedFiles
      = ((DocumentProcessor.process_directory s backend fs file_extensions
          recursive).1).totalFiles ∧
    ((DocumentProcessor.process_directory s backend fs file_extensions
        recursive).1).failedFiles
      = (DocumentProcessor.find_files fs
          (file_extensions.getD s.SUPPORTED_FILE_EXTENSIONS) recursive).countP
          (fun f => (DocumentProcessor.fileOutcome s backend fs f).1.status == "error") ∧
    ((DocumentProcessor.process_directory s backend fs file_extensions
        recursive).1).errors
      = ((DocumentProcessor.find_files fs
            (file_extensions.getD s.SUPPORTED_FILE_EXTENSIONS) recursive).filter
          (fun f => (DocumentProcessor.fileOutcome s backend fs f).1.status
            == "error")).map
          (fun f => (DocumentProcessor.fileOutcome s backend fs f).1) := by
  have hres := process_files_batch_results s backend fs
    (DocumentProcessor.find_files fs
      (file_extensions.getD s.SUPPORTED_FILE_EXTENSIONS) recursive)
  have hdi : ∀ r ∈ (DocumentProcessor.find_files fs
      (file_extensions.getD s.SUPPORTED_FILE_EXTENSIONS) recursive).map
      (fun f => (DocumentProcessor.fileOutcome s backend fs f).1),
      r.status = "success" ∨ r.status = "error" := by
    intro r hr
    rcases List.mem_map.mp hr with ⟨f, hf, rfl⟩
    exact fileOutcome_status s backend fs f
  unfold DocumentProcessor.process_directory
  by_cases he : (DocumentProcessor.find_files fs
      (file_extensions.getD s.SUPPORTED_FILE_EXTENSIONS) recursive).isEmpty
  · rw [List.isEmpty_iff] at he
    simp [he]
  · rw [if_neg he]
    simp only [hres]
    refine ⟨?_, ?_, ?_⟩
    · rw [tri_countP _ hdi, List.length_map]
    · rw [List.countP_map]
      rfl
    · rw [List.filter_map]
      rfl

/-- The directory of the C2 scenario: three .txt files, of which c.txt
(200 MiB = 209715200 bytes) exceeds the default 100 MB size limit. -/
def c2fs : List FileRec :=
  [⟨["a.txt"], 1000⟩, ⟨["b.txt"], 2000⟩, ⟨["c.txt"], 209715200⟩]

/-- C2 counterexample: on a directory of three files with one over the
size limit, process_directory reports total 3, processed 2, failed 1 and
skipped 0 — the oversize file is counted as an error, not as skipped,
refuting the claimed report of processed 2 / failed 0 / skipped 1. -/
theorem C2_counterexample :
    ((DocumentProcessor.process_directory {} (fun _ => .ok ()) c2fs
        (some [".txt"]) true).1).totalFiles = 3 ∧
    ((DocumentProcessor.process_directory {} (fun _ => .ok ()) c2fs
        (some [".txt"]) true).1).processedFiles = 2 ∧
    ((DocumentProcessor.process_directory {} (fun _ => .ok ()) c2fs
        (some [".txt"]) true).1).failedFiles = 1 ∧
    ((DocumentProcessor.process_directory {} (fun _ => .ok ()) c2fs
        (some [".txt"]) true).1).skippedFiles = 0 := by
  decide

/-- C2 as amended: a file over the configured maximum size is rejected
before the backend is entered (zero backend invocations) by a ValueError
raised from the size check, and the batch path therefore classifies it as
an "error" record — not as "skipped"; in the three-file scenario the
report is total 3, processed 2, failed 1, skipped 0. -/
theorem C2_oversize_is_error_not_skipped (s : Settings)
    (backend : FileRec → Except String Unit) (fs : List FileRec) (f : FileRec)
    (hfind : fs.find? (fun g => g.path == f.path) = some f)
    (hsize : fileSizeMB f > (s.MAX_FILE_SIZE_MB : ℚ)) :
    DocumentProcessor.process_single_document s backend fs f.path
      = (.error (.valueError (fileTooLargeMsg f s)), 0) ∧
    DocumentProcessor.fileOutcome s backend fs f
      = ({ status := "error", filePath := f.path,
           error := some (fileTooLargeMsg f s) }, 0) := by
  have h1 : DocumentProcessor.process_single_document s backend fs f.path
      = (.error (.valueError (fileTooLargeMsg f s)), 0) := by
    unfold DocumentProcessor.process_single_document
    simp only [hfind]
    rw [if_pos hsize]
  refine ⟨h1, ?_⟩
  unfold DocumentProcessor.fileOutcome
  rw [h1]
  rfl

/-- Witness for C2 (amended) at concrete inputs: the oversize file of the
scenario raises the size ValueError with zero backend invocations and
becomes an error record in the batch. -/
theorem C2_witness :
    DocumentProcessor.process_single_document {} (fun _ => .ok ()) c2fs ["c.txt"]
      = (.error (.valueError (fileTooLargeMsg ⟨["c.txt"], 209715200⟩ {})), 0) ∧
    DocumentProcessor.fileOutcome {} (fun _ => .ok ()) c2fs ⟨["c.txt"], 209715200⟩
      = ({ status := "error", filePath := ["c.txt"],
           error := some (fileTooLargeMsg ⟨["c.txt"], 209715200⟩ {}) }, 0) :=
  C2_oversize_is_error_not_skipped {} (fun _ => .ok ()) c2fs
    ⟨["c.txt"], 209715200⟩ (by decide) (by decide)
